import Mathlib

/-!
# Verification of the delivery-route optimizer and its routing-provider adapters

Shallow embedding of the traffic-density delivery optimizer (TypeScript sources:
`src/services/optimizer.ts`, `src/services/here-provider.ts`,
`src/services/google-provider.ts` (which also contains the TomTom adapter),
`src/types/index.ts`, and the HTTP route handler).

Modelling conventions:
* JavaScript numbers are modelled as rationals (`ℚ`); the floating-point
  representation is not semantically relevant to the verified properties.
* `Date` values and ISO-8601 timestamp strings are modelled as rational
  milliseconds since the epoch (`TimeMs`): `new Date(s)`, `.getTime()` and
  `.toISOString()` all become the identity on that instant.
* Asynchronous provider calls become calls of a pure oracle function, with an
  explicit counter threaded through to count `calculateRoute` invocations.
* `uuid`/`createdAt` fields are external nondeterminism and are omitted from
  the embedded records; no verified property mentions them.
-/

/-- Milliseconds since the Unix epoch (the instant denoted by a JS `Date` or an
ISO-8601 string). -/
abbrev TimeMs : Type := ℚ

/-- JS `Math.round`: rounds half-up (towards +∞), `Math.round x = ⌊x + 1/2⌋`. -/
def jsRound (x : ℚ) : ℤ := ⌊x + 1 / 2⌋

/-- `Math.round(x * 1000) / 1000` — the 3-decimal rounding used throughout the
adapters and the optimizer. -/
def round3 (x : ℚ) : ℚ := (jsRound (x * 1000) : ℚ) / 1000

/-- Coordinates (`CoordinatesSchema` in `src/types/index.ts`). -/
structure Coordinates where
  lat : ℚ
  lng : ℚ
deriving Repr, DecidableEq, Inhabited

/-- `AddressInputSchema`: free-text address plus optional label. -/
structure AddressInput where
  address : String
  label : Option String := none
deriving Repr, DecidableEq, Inhabited

/-- `GeocodedAddressSchema`. -/
structure GeocodedAddress where
  address : String
  label : Option String := none
  coordinates : Coordinates
  formattedAddress : String
  confidence : ℚ
deriving Repr, DecidableEq, Inhabited

/-- `RouteRequest` (`src/services/routing-provider.ts`); the Google traffic
model parameter does not influence any verified property and is omitted (it is
forwarded opaquely to the provider). -/
structure RouteRequest where
  origin : GeocodedAddress
  destination : GeocodedAddress
  departureTime : TimeMs
deriving Repr, DecidableEq, Inhabited

/-- `RouteSegmentSchema`: one directed leg. The `id` (uuid) field is omitted. -/
structure RouteSegment where
  origin : GeocodedAddress
  destination : GeocodedAddress
  distanceMeters : ℚ
  travelTimeSeconds : ℚ
  noTrafficTravelTimeSeconds : ℚ
  trafficDensity : ℚ
  departureTime : TimeMs
  arrivalTime : TimeMs
deriving Repr, DecidableEq, Inhabited

/-- `DeliveryTargetSchema`. -/
structure DeliveryTarget where
  address : GeocodedAddress
  deliveryDurationMinutes : ℚ
deriving Repr, DecidableEq, Inhabited

/-- `OptimizedDeliverySchema`. -/
structure OptimizedDelivery where
  order : ℕ
  target : DeliveryTarget
  route : RouteSegment
  returnRoute : RouteSegment
  roundTripTrafficDensity : ℚ
  estimatedDepartureTime : TimeMs
  estimatedArrivalTime : TimeMs
  estimatedReturnTime : TimeMs
deriving Repr, DecidableEq, Inhabited

/-- `DeliveryPlanSchema` (uuid `id` and `createdAt` omitted; `dayType` is the
string returned by the external holiday classifier). -/
structure DeliveryPlan where
  provider : String
  depot : GeocodedAddress
  firstDepartureTime : TimeMs
  dayType : String
  deliveries : List OptimizedDelivery
  totalDistanceMeters : ℚ
  totalTravelTimeSeconds : ℚ
  totalNoTrafficTravelTimeSeconds : ℚ
  cumulativeTrafficDensity : ℚ
  averageTrafficDensity : ℚ
deriving Repr, DecidableEq, Inhabited

/-! ## Provider adapters: per-leg traffic density

Each adapter's `calculateRoute` parses the provider HTTP response and builds a
`RouteSegment`.  The network layer is external; we embed the response-to-segment
computation, taking the parsed response data as input. -/

/-- Parsed HERE route-section summary (`HereRouteResponseSchema`,
`src/services/here-provider.ts`): `duration`/`length` required,
`baseDuration`/`typicalDuration` optional. -/
structure HereSummary where
  duration : ℚ
  length : ℚ
  baseDuration : Option ℚ := none
  typicalDuration : Option ℚ := none
deriving Repr, DecidableEq, Inhabited

/-- Parsed HERE route section: departure/arrival times plus the summary. -/
structure HereSection where
  departureTime : TimeMs
  arrivalTime : TimeMs
  summary : HereSummary
deriving Repr, DecidableEq, Inhabited

/-- `HereProvider.calculateRoute` (`src/services/here-provider.ts:209-225`):
`noTrafficTime = baseDuration ?? typicalDuration ?? duration`, then
`trafficDensity = Math.round((duration / noTrafficTime) * 1000) / 1000`
— note: no clamp to 1.0 is applied by this adapter. -/
def HereProvider.routeSegment (request : RouteRequest) (sec : HereSection) :
    RouteSegment :=
  let summary := sec.summary
  let noTrafficTime := summary.baseDuration.getD
    (summary.typicalDuration.getD summary.duration)
  let trafficDensity := summary.duration / noTrafficTime
  { origin := request.origin
    destination := request.destination
    distanceMeters := summary.length
    travelTimeSeconds := summary.duration
    noTrafficTravelTimeSeconds := noTrafficTime
    trafficDensity := round3 trafficDensity
    departureTime := sec.departureTime
    arrivalTime := sec.arrivalTime }

/-- Parsed TomTom route summary (`TomTomRouteResponseSchema`). -/
structure TomTomSummary where
  lengthInMeters : ℚ
  travelTimeInSeconds : ℚ
  trafficDelayInSeconds : ℚ
  departureTime : TimeMs
  arrivalTime : TimeMs
  noTrafficTravelTimeInSeconds : Option ℚ := none
deriving Repr, DecidableEq, Inhabited

/-- `TomTomProvider.calculateRoute` (`src/services/google-provider.ts:658-675`):
`noTrafficTime = noTrafficTravelTimeInSeconds ?? travelTimeInSeconds`, then
`trafficDensity = Math.round((travelTimeInSeconds / noTrafficTime) * 1000) / 1000`
— again no clamp to 1.0. -/
def TomTomProvider.routeSegment (request : RouteRequest) (summary : TomTomSummary) :
    RouteSegment :=
  let noTrafficTime :=
    summary.noTrafficTravelTimeInSeconds.getD summary.travelTimeInSeconds
  let trafficDensity := summary.travelTimeInSeconds / noTrafficTime
  { origin := request.origin
    destination := request.destination
    distanceMeters := summary.lengthInMeters
    travelTimeSeconds := summary.travelTimeInSeconds
    noTrafficTravelTimeSeconds := noTrafficTime
    trafficDensity := round3 trafficDensity
    departureTime := summary.departureTime
    arrivalTime := summary.arrivalTime }

/-- Parsed Google Directions leg (`GoogleDirectionsResponseSchema`). -/
structure GoogleLeg where
  distanceValue : ℚ
  durationValue : ℚ
  durationInTrafficValue : Option ℚ := none
deriving Repr, DecidableEq, Inhabited

/-- `GoogleProvider.calculateRoute` (`src/services/google-provider.ts:215-239`):
`travelTimeWithTraffic = duration_in_traffic ?? duration`,
`rawTrafficDensity = travelTimeWithTraffic / duration`,
`trafficDensity = Math.max(1.0, rawTrafficDensity)` then 3-decimal rounding;
arrival = departure + travelTimeWithTraffic seconds. This is the only adapter
that clamps the density to a minimum of 1.0. -/
def GoogleProvider.routeSegment (request : RouteRequest) (leg : GoogleLeg) :
    RouteSegment :=
  let travelTimeWithTraffic := leg.durationInTrafficValue.getD leg.durationValue
  let noTrafficTime := leg.durationValue
  let rawTrafficDensity := travelTimeWithTraffic / noTrafficTime
  let trafficDensity := max 1 rawTrafficDensity
  let arrivalTime := request.departureTime + travelTimeWithTraffic * 1000
  { origin := request.origin
    destination := request.destination
    distanceMeters := leg.distanceValue
    travelTimeSeconds := travelTimeWithTraffic
    noTrafficTravelTimeSeconds := noTrafficTime
    trafficDensity := round3 trafficDensity
    departureTime := request.departureTime
    arrivalTime := arrivalTime }

/-! ## The delivery optimizer (`src/services/optimizer.ts`)

The routing provider is an oracle: a pure geocoding function (`none` models a
geocoding failure, which the source surfaces as a thrown error) and a pure
`calculateRoute` function.  A natural-number counter threaded through the
computation counts `calculateRoute` invocations. -/

/-- Abstract routing provider (`IRoutingProvider`), as consumed by the
optimizer. -/
structure Provider where
  name : String
  geocode : AddressInput → Option GeocodedAddress
  calcRoute : RouteRequest → RouteSegment

/-- One awaited `provider.calculateRoute(request)` call: returns the oracle's
segment and bumps the invocation counter. -/
def Provider.callRoute (p : Provider) (request : RouteRequest) (calls : ℕ) :
    RouteSegment × ℕ :=
  (p.calcRoute request, calls + 1)

/-- `config.defaults.deliveryDurationMinutes` (`src/config.ts`). -/
def configDefaultDeliveryDurationMinutes : ℚ := 15

/-- `RoundTripRoute` (optimizer-internal). -/
structure RoundTripRoute where
  target : GeocodedAddress
  outboundRoute : RouteSegment
  returnRoute : RouteSegment
  roundTripTrafficDensity : ℚ
deriving Repr, DecidableEq, Inhabited

/-- `DeliveryOptimizer.calculateRoundTrip` (`optimizer.ts:37-77`): outbound leg
`depot → target` at `departureTime`; return leg `target → depot` departing at
outbound arrival plus `deliveryDurationMinutes` minutes; round-trip density is
the 3-decimal-rounded mean of the two legs' densities. -/
def calculateRoundTrip (p : Provider) (depotGeocoded target : GeocodedAddress)
    (departureTime : TimeMs) (deliveryDurationMinutes : ℚ) (calls : ℕ) :
    RoundTripRoute × ℕ :=
  let r1 := p.callRoute
    { origin := depotGeocoded, destination := target, departureTime } calls
  let outboundRoute := r1.1
  let returnDepartureTime :=
    outboundRoute.arrivalTime + deliveryDurationMinutes * 60 * 1000
  let r2 := p.callRoute
    { origin := target, destination := depotGeocoded,
      departureTime := returnDepartureTime } r1.2
  let returnRoute := r2.1
  let roundTripTrafficDensity :=
    (outboundRoute.trafficDensity + returnRoute.trafficDensity) / 2
  ({ target, outboundRoute, returnRoute,
     roundTripTrafficDensity := round3 roundTripTrafficDensity }, r2.2)

/-- Sum of the two legs' travel times with traffic — the greedy selection key
(`optimizer.ts:137-141`). -/
def RoundTripRoute.totalTravelTime (c : RoundTripRoute) : ℚ :=
  c.outboundRoute.travelTimeSeconds + c.returnRoute.travelTimeSeconds

/-- The candidate list of one greedy round (`optimizer.ts:121-132`): a round
trip for every remaining target, all departing at the current simulated
clock, in the order the targets appear in the remaining list. -/
def roundCandidates (p : Provider) (depotGeocoded : GeocodedAddress)
    (deliveryDurationMinutes : ℚ) :
    List GeocodedAddress → TimeMs → ℕ → List RoundTripRoute × ℕ
  | [], _, calls => ([], calls)
  | target :: rest, currentDepartureTime, calls =>
    let r := calculateRoundTrip p depotGeocoded target currentDepartureTime
      deliveryDurationMinutes calls
    let rs := roundCandidates p depotGeocoded deliveryDurationMinutes rest
      currentDepartureTime r.2
    (r.1 :: rs.1, rs.2)

/-- `candidates.sort((a, b) => aTotalTime - bTotalTime)` — ECMAScript
`Array.prototype.sort` is a stable sort; with this numeric comparator it is a
stable sort by the round-trip travel-time sum, modelled by `List.mergeSort`
(stable by construction). -/
def jsSortByTotalTime (candidates : List RoundTripRoute) : List RoundTripRoute :=
  candidates.mergeSort fun a b =>
    decide (a.totalTravelTime ≤ b.totalTravelTime)

/-- `const selected = candidates[0]` after the sort (`optimizer.ts:137-142`). -/
def selectedCandidate (candidates : List RoundTripRoute) : RoundTripRoute :=
  (jsSortByTotalTime candidates).headI

/-- JS `Array.prototype.findIndex`: index of the first match, `-1` if none. -/
def jsFindIndex (l : List GeocodedAddress) (pred : GeocodedAddress → Bool) : ℤ :=
  match l.findIdx? pred with
  | some i => (i : ℤ)
  | none => -1

/-- JS `arr.splice(start, 1)`: removes one element at `start` (a negative
`start` counts from the end, so `splice(-1, 1)` removes the last element). -/
def jsSpliceOne (l : List GeocodedAddress) (start : ℤ) : List GeocodedAddress :=
  let actualStart : ℤ := if start < 0 then max ((l.length : ℤ) + start) 0
    else min start (l.length : ℤ)
  l.eraseIdx actualStart.toNat

/-- Build one `OptimizedDelivery` record from a computed round trip (the
record literal at `optimizer.ts:160-169` resp. `optimizer.ts:199-208`). -/
def mkOptimizedDelivery (roundTrip : RoundTripRoute) (deliveryDurationMinutes : ℚ)
    (currentDepartureTime : TimeMs) (orderNum : ℕ) : OptimizedDelivery :=
  { order := orderNum
    target := { address := roundTrip.target, deliveryDurationMinutes }
    route := roundTrip.outboundRoute
    returnRoute := roundTrip.returnRoute
    roundTripTrafficDensity := roundTrip.roundTripTrafficDensity
    estimatedDepartureTime := currentDepartureTime
    estimatedArrivalTime := roundTrip.outboundRoute.arrivalTime
    estimatedReturnTime := roundTrip.returnRoute.arrivalTime }

/-- Greedy re-optimization loop (`optimizer.ts:119-175`), a `while` loop over
the remaining targets.  The source loop terminates because each iteration
splices exactly one element out of `remainingTargets`; the embedding makes
this explicit with a fuel argument initialized to the number of targets. -/
def greedyLoop (p : Provider) (depotGeocoded : GeocodedAddress)
    (deliveryDurationMinutes : ℚ) :
    ℕ → List GeocodedAddress → TimeMs → List OptimizedDelivery → ℕ →
    List OptimizedDelivery × TimeMs × ℕ
  | 0, _, currentDepartureTime, deliveries, calls =>
    (deliveries, currentDepartureTime, calls)
  | fuel + 1, remainingTargets, currentDepartureTime, deliveries, calls =>
    if remainingTargets.isEmpty then (deliveries, currentDepartureTime, calls)
    else
      let cs := roundCandidates p depotGeocoded deliveryDurationMinutes
        remainingTargets currentDepartureTime calls
      let selected := selectedCandidate cs.1
      let selectedIndex := jsFindIndex remainingTargets
        fun t => t.address == selected.target.address
      let remaining' := jsSpliceOne remainingTargets selectedIndex
      let optimizedDelivery : OptimizedDelivery :=
        mkOptimizedDelivery selected deliveryDurationMinutes currentDepartureTime
          (deliveries.length + 1)
      greedyLoop p depotGeocoded deliveryDurationMinutes fuel remaining'
        selected.returnRoute.arrivalTime (deliveries ++ [optimizedDelivery]) cs.2

/-- Original-order loop (`optimizer.ts:178-215`): process targets as supplied,
`i` the 0-based loop index. -/
def orderedLoop (p : Provider) (depotGeocoded : GeocodedAddress)
    (deliveryDurationMinutes : ℚ) :
    List GeocodedAddress → ℕ → TimeMs → List OptimizedDelivery → ℕ →
    List OptimizedDelivery × TimeMs × ℕ
  | [], _, currentDepartureTime, deliveries, calls =>
    (deliveries, currentDepartureTime, calls)
  | target :: rest, i, currentDepartureTime, deliveries, calls =>
    let r := calculateRoundTrip p depotGeocoded target currentDepartureTime
      deliveryDurationMinutes calls
    let roundTrip := r.1
    let optimizedDelivery : OptimizedDelivery :=
      mkOptimizedDelivery roundTrip deliveryDurationMinutes currentDepartureTime (i + 1)
    orderedLoop p depotGeocoded deliveryDurationMinutes rest (i + 1)
      roundTrip.returnRoute.arrivalTime (deliveries ++ [optimizedDelivery]) r.2

/-- Post-geocoding body of `DeliveryOptimizer.optimize` (`optimizer.ts:111-263`):
run one of the two loops, then aggregate totals and plan-level density
(`hol` is the external day-type classifier).  Returns the plan and the total
number of `calculateRoute` calls issued. -/
def optimizeCore (p : Provider) (hol : TimeMs → String)
    (depotGeocoded : GeocodedAddress) (targetAddresses : List GeocodedAddress)
    (firstDepartureTime : TimeMs) (deliveryDurationMinutes : ℚ)
    (sortByTrafficDensity : Bool) : DeliveryPlan × ℕ :=
  let r :=
    if sortByTrafficDensity then
      greedyLoop p depotGeocoded deliveryDurationMinutes targetAddresses.length
        targetAddresses firstDepartureTime [] 0
    else
      orderedLoop p depotGeocoded deliveryDurationMinutes targetAddresses 0
        firstDepartureTime [] 0
  let deliveries := r.1
  let totalDistanceMeters := deliveries.foldl
    (fun sum d => sum + d.route.distanceMeters + d.returnRoute.distanceMeters) (0 : ℚ)
  let totalTravelTimeSeconds := deliveries.foldl
    (fun sum d => sum + d.route.travelTimeSeconds + d.returnRoute.travelTimeSeconds) (0 : ℚ)
  let totalNoTrafficTravelTimeSeconds := deliveries.foldl
    (fun sum d =>
      sum + d.route.noTrafficTravelTimeSeconds + d.returnRoute.noTrafficTravelTimeSeconds) (0 : ℚ)
  let cumulativeTrafficDensity := deliveries.foldl
    (fun sum d => sum + d.roundTripTrafficDensity) (0 : ℚ)
  let rawAverageTrafficDensity :=
    if 0 < totalNoTrafficTravelTimeSeconds then
      totalTravelTimeSeconds / totalNoTrafficTravelTimeSeconds
    else 1
  let averageTrafficDensity := max 1 rawAverageTrafficDensity
  let dayType := hol firstDepartureTime
  ({ provider := p.name
     depot := depotGeocoded
     firstDepartureTime
     dayType
     deliveries
     totalDistanceMeters
     totalTravelTimeSeconds
     totalNoTrafficTravelTimeSeconds
     cumulativeTrafficDensity := round3 cumulativeTrafficDensity
     averageTrafficDensity := round3 averageTrafficDensity }, r.2.2)

/-- Insert/overwrite a key in the JS `Map` modelled as an association list. -/
def mapSet (m : List (String × GeocodedAddress)) (k : String)
    (v : GeocodedAddress) : List (String × GeocodedAddress) :=
  match m with
  | [] => [(k, v)]
  | (k', v') :: rest =>
    if k' = k then (k, v) :: rest else (k', v') :: mapSet rest k v

/-- JS `Map.get` on the association list. -/
def mapGet (m : List (String × GeocodedAddress)) (k : String) :
    Option GeocodedAddress :=
  match m with
  | [] => none
  | (k', v) :: rest => if k' = k then some v else mapGet rest k

/-- Worker for `geocodeMultiple`: geocode each input in order, short-circuiting
with an error naming the first failing address. -/
def geocodeMultipleGo (p : Provider) :
    List AddressInput → List (String × GeocodedAddress) →
    Except String (List (String × GeocodedAddress))
  | [], acc => .ok acc
  | input :: rest, acc =>
    match p.geocode input with
    | some geocoded => geocodeMultipleGo p rest (mapSet acc input.address geocoded)
    | none => .error ("Failed to geocode address " ++ input.address)

/-- `geocodeMultiple` as implemented by every adapter: sequential geocoding
into a map keyed by the input address text. -/
def geocodeMultiple (p : Provider) (inputs : List AddressInput) :
    Except String (List (String × GeocodedAddress)) :=
  geocodeMultipleGo p inputs []

/-- The target-collection loop of `optimize` (`optimizer.ts:102-109`): look
every target up in the geocoding map, failing on the first miss. -/
def collectTargets (geocoded : List (String × GeocodedAddress)) :
    List AddressInput → Except String (List GeocodedAddress)
  | [] => .ok []
  | target :: rest =>
    match mapGet geocoded target.address with
    | none => .error ("Failed to geocode target address: " ++ target.address)
    | some g =>
      match collectTargets geocoded rest with
      | .error e => .error e
      | .ok gs => .ok (g :: gs)

/-- `OptimizeOptions` (`optimizer.ts:16-24`).  `sortByTrafficDensity = true` is
the "density-greedy" mode, `false` the "ordered" mode. -/
structure OptimizeOptions where
  depot : AddressInput
  targets : List AddressInput
  firstDepartureTime : TimeMs
  deliveryDurationMinutes : ℚ := configDefaultDeliveryDurationMinutes
  sortByTrafficDensity : Bool := false

/-- `DeliveryOptimizer.optimize` (`optimizer.ts:79-264`): geocode depot and
targets, then run the core algorithm.  The result carries the number of
`calculateRoute` calls issued. -/
def optimize (p : Provider) (hol : TimeMs → String) (options : OptimizeOptions) :
    Except String (DeliveryPlan × ℕ) :=
  match geocodeMultiple p (options.depot :: options.targets) with
  | .error e => .error e
  | .ok geocoded =>
    match mapGet geocoded options.depot.address with
    | none => .error ("Failed to geocode depot address: " ++ options.depot.address)
    | some depotGeocoded =>
      match collectTargets geocoded options.targets with
      | .error e => .error e
      | .ok targetAddresses =>
        .ok (optimizeCore p hol depotGeocoded targetAddresses
          options.firstDepartureTime options.deliveryDurationMinutes
          options.sortByTrafficDensity)

/-- The simulated-clock chain: the first delivery departs at the given time and
every later delivery departs at the previous delivery's return arrival. -/
def deliveryChain : TimeMs → List OptimizedDelivery → Prop
  | _, [] => True
  | t, d :: ds => d.estimatedDepartureTime = t ∧ deliveryChain d.estimatedReturnTime ds

/-! ## Request validation and the HTTP optimize endpoint

`OptimizeRequestSchema` (`src/types/index.ts:86-93`) and the
`POST /api/delivery/optimize` handler.  The zod `datetime()` string validator
and `new Date(string)` are external and passed in as oracles. -/

/-- `AddressInputSchema`: `address: z.string().min(1)`. -/
def addressInputValid (a : AddressInput) : Bool := 1 ≤ a.address.length

/-- `RoutingProviderSchema`: `z.enum(['tomtom', 'here'])`. -/
def routingProviderValid (s : String) : Bool := s == "tomtom" || s == "here"

/-- Raw request body for the optimize endpoint, before schema validation. -/
structure OptimizeRequestRaw where
  depot : AddressInput
  targets : List AddressInput
  firstDepartureTime : String
  deliveryDurationMinutes : Option ℚ := none
  provider : Option String := none
deriving Repr, DecidableEq, Inhabited

/-- A request body that passed `OptimizeRequestSchema` (defaults applied). -/
structure OptimizeRequestParsed where
  depot : AddressInput
  targets : List AddressInput
  firstDepartureTime : String
  deliveryDurationMinutes : ℚ
  provider : Option String
deriving Repr, DecidableEq, Inhabited

/-- `OptimizeRequestSchema.safeParse`: depot and targets must be valid address
inputs, `targets` has between 1 and 50 entries, `firstDepartureTime` is a
datetime string, a provided `deliveryDurationMinutes` must be positive
(defaulting to 15 when absent), and a provided `provider` must be a known
provider id. -/
def safeParseOptimizeRequest (isDatetime : String → Bool)
    (r : OptimizeRequestRaw) : Option OptimizeRequestParsed :=
  if addressInputValid r.depot
      && r.targets.all addressInputValid
      && decide (1 ≤ r.targets.length)
      && decide (r.targets.length ≤ 50)
      && isDatetime r.firstDepartureTime
      && (match r.deliveryDurationMinutes with
          | some d => decide ((0 : ℚ) < d)
          | none => true)
      && (match r.provider with
          | some s => routingProviderValid s
          | none => true) then
    some { depot := r.depot
           targets := r.targets
           firstDepartureTime := r.firstDepartureTime
           deliveryDurationMinutes := r.deliveryDurationMinutes.getD 15
           provider := r.provider }
  else none

/-- Outcome of the optimize endpoint: HTTP 400 on schema failure, HTTP 500 on
an optimizer error (via the express error middleware), or the plan. -/
inductive ApiResponse where
  | badRequest (error : String)
  | serverError (error : String)
  | ok (plan : DeliveryPlan)
deriving Repr

/-- The `POST /api/delivery/optimize` handler: `safeParse` the body; on failure
respond 400 "Invalid request body" without calling the optimizer; otherwise run
the optimizer on the parsed data (`toInstant` models `new Date(string)`). -/
def handleOptimize (p : Provider) (hol : TimeMs → String)
    (isDatetime : String → Bool) (toInstant : String → TimeMs)
    (body : OptimizeRequestRaw) : ApiResponse :=
  match safeParseOptimizeRequest isDatetime body with
  | none => .badRequest "Invalid request body"
  | some req =>
    match optimize p hol
        { depot := req.depot
          targets := req.targets
          firstDepartureTime := toInstant req.firstDepartureTime
          deliveryDurationMinutes := req.deliveryDurationMinutes } with
    | .error e => .serverError e
    | .ok r => .ok r.1

/-! ## Concrete fixtures (stub providers and inputs) used by witnesses and
counterexamples -/

/-- Stub geocoder result: every address resolves at the origin. -/
def stubGeocode (input : AddressInput) : GeocodedAddress :=
  { address := input.address
    coordinates := { lat := 0, lng := 0 }
    formattedAddress := input.address
    confidence := 1 }

/-- Stub provider: every leg takes 200 s with traffic against a 150 s
baseline (density 4/3), covering 1000 m. -/
def stubProvider : Provider :=
  { name := "tomtom"
    geocode := fun input => some (stubGeocode input)
    calcRoute := fun req =>
      { origin := req.origin
        destination := req.destination
        distanceMeters := 1000
        travelTimeSeconds := 200
        noTrafficTravelTimeSeconds := 150
        trafficDensity := 4 / 3
        departureTime := req.departureTime
        arrivalTime := req.departureTime + 200 * 1000 } }

/-- Stub provider whose legs have traffic density 4/5 < 1 (as the HERE adapter
can produce; see the C1 analysis). -/
def lowDensityProvider : Provider :=
  { name := "here"
    geocode := fun input => some (stubGeocode input)
    calcRoute := fun req =>
      { origin := req.origin
        destination := req.destination
        distanceMeters := 1000
        travelTimeSeconds := 80
        noTrafficTravelTimeSeconds := 100
        trafficDensity := 4 / 5
        departureTime := req.departureTime
        arrivalTime := req.departureTime + 80 * 1000 } }

/-- Stub day-type classifier. -/
def stubHol : TimeMs → String := fun _ => "weekday"

/-- One ordered-mode delivery from depot `"D"` to target `"A"`. -/
def stubOptions : OptimizeOptions :=
  { depot := { address := "D" }
    targets := [{ address := "A" }]
    firstDepartureTime := 0 }

/-- The plan/count pair produced by the stub run. -/
def stubResult : DeliveryPlan × ℕ :=
  (optimize stubProvider stubHol stubOptions).toOption.getD default

/-- Two ordered-mode deliveries (targets `"A"`, `"B"`). -/
def stubOptionsTwo : OptimizeOptions :=
  { depot := { address := "D" }
    targets := [{ address := "A" }, { address := "B" }]
    firstDepartureTime := 0 }

/-- The plan/count pair of the two-target stub run. -/
def stubResultTwo : DeliveryPlan × ℕ :=
  (optimize stubProvider stubHol stubOptionsTwo).toOption.getD default

/-- An optimize call with an empty target list. -/
def emptyTargetsOptions : OptimizeOptions :=
  { depot := { address := "D" }
    targets := []
    firstDepartureTime := 0 }

/-- A raw request body with an empty target list. -/
def emptyTargetsBody : OptimizeRequestRaw :=
  { depot := { address := "D" }
    targets := []
    firstDepartureTime := "2025-06-02T08:00:00Z" }

/-- Sample route request between two stub addresses. -/
def sampleRequest : RouteRequest :=
  { origin := stubGeocode { address := "D" }
    destination := stubGeocode { address := "A" }
    departureTime := 0 }

/-- HERE response section whose travel time (90 s) is below its free-flow
baseline (100 s), as happens when the predicted conditions beat the baseline
semantics of `baseDuration`/`typicalDuration`. -/
def hereSlowBaselineSection : HereSection :=
  { departureTime := 0
    arrivalTime := 90000
    summary := { duration := 90, length := 1000, baseDuration := some 100 } }

/-- HERE response section with travel time (120 s) above the baseline (100 s). -/
def hereCongestedSection : HereSection :=
  { departureTime := 0
    arrivalTime := 120000
    summary := { duration := 120, length := 1000, baseDuration := some 100 } }

/-- TomTom summary with travel time (120 s) above the baseline (100 s). -/
def tomtomCongestedSummary : TomTomSummary :=
  { lengthInMeters := 1000
    travelTimeInSeconds := 120
    trafficDelayInSeconds := 20
    departureTime := 0
    arrivalTime := 120000
    noTrafficTravelTimeInSeconds := some 100 }

/-- Google leg with traffic time (80 s) below the historical baseline (100 s). -/
def googleLightTrafficLeg : GoogleLeg :=
  { distanceValue := 1000
    durationValue := 100
    durationInTrafficValue := some 80 }

/-! ### Basic facts about `round3` -/

theorem jsRound_mono {x y : ℚ} (h : x ≤ y) : jsRound x ≤ jsRound y := by
  unfold jsRound
  exact Int.floor_le_floor (by linarith)

theorem round3_mono {x y : ℚ} (h : x ≤ y) : round3 x ≤ round3 y := by
  unfold round3
  have : jsRound (x * 1000) ≤ jsRound (y * 1000) := jsRound_mono (by linarith)
  have : (jsRound (x * 1000) : ℚ) ≤ (jsRound (y * 1000) : ℚ) := by exact_mod_cast this
  linarith

theorem round3_one : round3 1 = 1 := by
  unfold round3 jsRound
  norm_num

theorem round3_ge_one {x : ℚ} (h : 1 ≤ x) : 1 ≤ round3 x := by
  have := round3_mono h
  rw [round3_one] at this
  exact this

/-! ## Helper lemmas

`headI_mergeSort_min` / `headI_mergeSort_first_argmin`: the head of a stable
merge sort by a rational key is a minimal element, and among equal-key elements
it is the one of smallest original index — the model of `candidates.sort(cmp)[0]`
for the ECMAScript stable sort. -/

/-- The head of `mergeSort` by key `f` has minimal key. -/

theorem headI_mergeSort_min {α : Type} [Inhabited α] (f : α → ℚ) (l : List α) (h : l ≠ []) :
    ∀ c ∈ l, f ((l.mergeSort fun a b => decide (f a ≤ f b)).headI) ≤ f c := by
  intro c hc
  set le : α → α → Bool := fun a b => decide (f a ≤ f b) with hle
  have hperm := List.mergeSort_perm l le
  have hs : (l.mergeSort le).Pairwise (le · ·) :=
    List.sorted_mergeSort
      (by intro a b c hab hbc; simp only [hle, decide_eq_true_eq] at *; linarith)
      (by intro a b; simp only [hle]; by_cases hab : f a ≤ f b <;> simp [hab]; linarith)
      l
  have hne : l.mergeSort le ≠ [] := by
    intro hnil
    have := hperm.length_eq
    rw [hnil] at this
    simp at this
    exact h (List.length_eq_zero.mp this.symm)
  obtain ⟨a, t, hat⟩ := List.exists_cons_of_ne_nil hne
  have hc' : c ∈ l.mergeSort le := hperm.mem_iff.mpr hc
  rw [hat] at hc' hs ⊢
  simp only [List.headI]
  rcases List.mem_cons.mp hc' with rfl | hct
  · exact le_refl _
  · have := (List.pairwise_cons.mp hs).1 c hct
    simpa [hle] using this

/-- The head of `mergeSort` by key `f` is the element of least original index among
those of minimal key (stability). -/
theorem headI_mergeSort_first_argmin {α : Type} [Inhabited α] (f : α → ℚ) (l : List α) (h : l ≠ []) :
    ∃ i : Fin l.length,
      (l.mergeSort fun a b => decide (f a ≤ f b)).headI = l.get i ∧
      (∀ j : Fin l.length, f (l.get i) ≤ f (l.get j)) ∧
      (∀ j : Fin l.length, f (l.get j) ≤ f (l.get i) → (i : ℕ) ≤ j) := by
  set le : α → α → Bool := fun a b => decide (f a ≤ f b) with hle
  have htrans : ∀ a b c, le a b → le b c → le a c := by
    intro a b c hab hbc
    simp only [hle, decide_eq_true_eq] at *
    linarith
  have htotal : ∀ a b, le a b || le b a := by
    intro a b
    simp only [hle]
    by_cases hab : f a ≤ f b <;> simp [hab]
    linarith
  have henum : (List.mergeSort l.enum (List.enumLE le)).map (·.2) = l.mergeSort le :=
    List.mergeSort_enum
  have hne : List.mergeSort l.enum (List.enumLE le) ≠ [] := by
    intro hnil
    have : l.enum.length = 0 := by
      have := (List.mergeSort_perm l.enum (List.enumLE le)).length_eq
      rw [hnil] at this
      simpa using this.symm
    simp at this
    exact h this
  obtain ⟨⟨i, x⟩, t, hat⟩ := List.exists_cons_of_ne_nil hne
  have hmemh : ((i, x) : ℕ × α) ∈ l.enum := by
    have : ((i, x) : ℕ × α) ∈ List.mergeSort l.enum (List.enumLE le) := by
      rw [hat]; exact List.mem_cons_self _ _
    exact List.mem_mergeSort.mp this
  have hix := List.mk_mem_enum_iff_getElem?.mp hmemh
  have hilt : i < l.length := by
    by_contra hge
    rw [List.getElem?_eq_none (by omega)] at hix
    exact Option.noConfusion hix
  have hxi : x = l.get ⟨i, hilt⟩ := by
    rw [List.getElem?_eq_getElem hilt] at hix
    simpa using (Option.some.inj hix).symm
  have hpair : (List.mergeSort l.enum (List.enumLE le)).Pairwise
      (fun a b => List.enumLE le a b) :=
    List.sorted_mergeSort (List.enumLE_trans htrans) (List.enumLE_total htotal) l.enum
  have hhead : (l.mergeSort le).headI = x := by
    rw [← henum, hat]
    rfl
  have hrel : ∀ j : Fin l.length, (j : ℕ) ≠ i →
      List.enumLE le (i, x) ((j : ℕ), l.get j) := by
    intro j hji
    have hmemj : (((j : ℕ), l.get j) : ℕ × α) ∈ l.enum := by
      apply List.mk_mem_enum_iff_getElem?.mpr
      simp [List.getElem?_eq_getElem j.isLt]
    have hmemj' : (((j : ℕ), l.get j) : ℕ × α) ∈
        List.mergeSort l.enum (List.enumLE le) := List.mem_mergeSort.mpr hmemj
    rw [hat] at hmemj' hpair
    rcases List.mem_cons.mp hmemj' with heq | hmt
    · exfalso
      exact hji (congrArg Prod.fst heq)
    · exact (List.pairwise_cons.mp hpair).1 _ hmt
  have hmin : ∀ j : Fin l.length, f x ≤ f (l.get j) := by
    intro j
    by_cases hji : (j : ℕ) = i
    · have : j = ⟨i, hilt⟩ := Fin.ext hji
      rw [this, ← hxi]
    · have hr := hrel j hji
      simp [List.enumLE] at hr
      have h1 := hr.1
      simp only [hle, decide_eq_true_eq, List.get_eq_getElem] at h1 ⊢
      exact h1
  refine ⟨⟨i, hilt⟩, by rw [hhead, hxi], ?_, ?_⟩
  · intro j
    rw [← hxi]
    exact hmin j
  · intro j hj
    by_cases hji : (j : ℕ) = i
    · simp only [Fin.val_mk]
      omega
    · have hr := hrel j hji
      simp [List.enumLE] at hr
      rcases hr.2 with hfalse | hij
      · exfalso
        rw [← hxi] at hj
        simp only [hle, decide_eq_false_iff_not, decide_eq_true_eq,
          List.get_eq_getElem] at hfalse hj
        exact hfalse hj
      · simpa using hij

/-- `calculateRoundTrip` issues exactly two `calculateRoute` calls. -/
theorem calculateRoundTrip_snd (p : Provider) (depotGeocoded target : GeocodedAddress)
    (departureTime : TimeMs) (deliveryDurationMinutes : ℚ) (calls : ℕ) :
    (calculateRoundTrip p depotGeocoded target departureTime
      deliveryDurationMinutes calls).2 = calls + 2 := rfl

/-- The round trip returned by `calculateRoundTrip` does not depend on the
call counter. -/
theorem calculateRoundTrip_fst_counter (p : Provider)
    (depotGeocoded target : GeocodedAddress) (departureTime : TimeMs)
    (deliveryDurationMinutes : ℚ) (calls : ℕ) :
    (calculateRoundTrip p depotGeocoded target departureTime
        deliveryDurationMinutes calls).1
      = (calculateRoundTrip p depotGeocoded target departureTime
        deliveryDurationMinutes 0).1 := rfl

/-- The candidate list of one greedy round is the remaining targets, in order,
mapped through `calculateRoundTrip` at the current clock. -/
theorem roundCandidates_fst (p : Provider) (depotGeocoded : GeocodedAddress)
    (deliveryDurationMinutes : ℚ) (remaining : List GeocodedAddress)
    (currentDepartureTime : TimeMs) (calls : ℕ) :
    (roundCandidates p depotGeocoded deliveryDurationMinutes remaining
        currentDepartureTime calls).1
      = remaining.map fun t =>
          (calculateRoundTrip p depotGeocoded t currentDepartureTime
            deliveryDurationMinutes 0).1 := by
  induction remaining generalizing calls with
  | nil => rfl
  | cons t rest ih =>
    simp only [roundCandidates, List.map_cons, ih]
    rfl

/-- One greedy round issues two `calculateRoute` calls per remaining target. -/
theorem roundCandidates_snd (p : Provider) (depotGeocoded : GeocodedAddress)
    (deliveryDurationMinutes : ℚ) (remaining : List GeocodedAddress)
    (currentDepartureTime : TimeMs) (calls : ℕ) :
    (roundCandidates p depotGeocoded deliveryDurationMinutes remaining
        currentDepartureTime calls).2 = calls + 2 * remaining.length := by
  induction remaining generalizing calls with
  | nil => rfl
  | cons t rest ih =>
    simp only [roundCandidates, ih, calculateRoundTrip_snd, List.length_cons]
    ring

/-- Splicing at the index produced by `findIndex` removes exactly one element
from a nonempty list (also when `findIndex` returns `-1`, in which case JS
`splice(-1, 1)` removes the last element). -/
theorem length_jsSpliceOne_jsFindIndex (l : List GeocodedAddress)
    (pred : GeocodedAddress → Bool) (h : l ≠ []) :
    (jsSpliceOne l (jsFindIndex l pred)).length + 1 = l.length := by
  have hpos : 0 < l.length := List.length_pos.mpr h
  unfold jsSpliceOne jsFindIndex
  cases hf : l.findIdx? pred with
  | some i =>
    have hi : i < l.length := List.findIdx?_eq_some_iff_findIdx_eq.mp hf |>.1
    have hneg : ¬ ((i : ℤ) < 0) := by omega
    simp only [hneg, if_false]
    have h1 : (min (i : ℤ) (l.length : ℤ)).toNat = i := by omega
    rw [h1, List.length_eraseIdx]
    simp only [hi, if_true]
    omega
  | none =>
    have hneg : ((-1 : ℤ) < 0) := by omega
    simp only [hneg, if_true]
    have h1 : (max ((l.length : ℤ) + -1) 0).toNat = l.length - 1 := by omega
    rw [h1, List.length_eraseIdx]
    have h2 : l.length - 1 < l.length := by omega
    simp only [h2, if_true]
    omega

/-- Invariant of the greedy loop: with fuel equal to the number of remaining
targets, the loop appends one delivery per target, numbering them consecutively
after the accumulator and chaining the simulated clock. -/
theorem greedyLoop_spec (p : Provider) (depotGeocoded : GeocodedAddress)
    (deliveryDurationMinutes : ℚ) :
    ∀ (fuel : ℕ) (remaining : List GeocodedAddress) (currentDepartureTime : TimeMs)
      (deliveries : List OptimizedDelivery) (calls : ℕ),
      remaining.length = fuel →
      ∃ new : List OptimizedDelivery,
        (greedyLoop p depotGeocoded deliveryDurationMinutes fuel remaining
          currentDepartureTime deliveries calls).1 = deliveries ++ new ∧
        new.map (·.order) = List.range' (deliveries.length + 1) fuel ∧
        deliveryChain currentDepartureTime new
  | 0, remaining, t, deliveries, calls, hlen => by
    refine ⟨[], by simp [greedyLoop], by simp, trivial⟩
  | fuel + 1, remaining, t, deliveries, calls, hlen => by
    have hne : remaining ≠ [] := by
      intro hnil
      rw [hnil] at hlen
      simp at hlen
    have hemp : remaining.isEmpty = false := by
      simpa [List.isEmpty_iff] using hne
    rw [greedyLoop, hemp]
    simp only [Bool.false_eq_true, if_false]
    have hlen' :
        (jsSpliceOne remaining (jsFindIndex remaining fun t' =>
          t'.address == (selectedCandidate (roundCandidates p depotGeocoded
            deliveryDurationMinutes remaining t calls).1).target.address)).length
          = fuel := by
      have := length_jsSpliceOne_jsFindIndex remaining
        (fun t' => t'.address == (selectedCandidate (roundCandidates p depotGeocoded
          deliveryDurationMinutes remaining t calls).1).target.address) hne
      omega
    obtain ⟨new', hres, hord, hchain⟩ :=
      greedyLoop_spec p depotGeocoded deliveryDurationMinutes fuel
        (jsSpliceOne remaining (jsFindIndex remaining fun t' =>
          t'.address == (selectedCandidate (roundCandidates p depotGeocoded
            deliveryDurationMinutes remaining t calls).1).target.address))
        (selectedCandidate (roundCandidates p depotGeocoded
          deliveryDurationMinutes remaining t calls).1).returnRoute.arrivalTime
        (deliveries ++ [mkOptimizedDelivery
          (selectedCandidate (roundCandidates p depotGeocoded
            deliveryDurationMinutes remaining t calls).1)
          deliveryDurationMinutes t (deliveries.length + 1)])
        (roundCandidates p depotGeocoded deliveryDurationMinutes remaining t calls).2
        hlen'
    refine ⟨mkOptimizedDelivery
      (selectedCandidate (roundCandidates p depotGeocoded
        deliveryDurationMinutes remaining t calls).1)
      deliveryDurationMinutes t (deliveries.length + 1) :: new', ?_, ?_, ?_⟩
    · rw [hres]
      simp
    · simp only [List.map_cons, hord]
      rw [List.range'_succ]
      simp [List.length_append, mkOptimizedDelivery]
    · refine ⟨rfl, ?_⟩
      exact hchain

/-- Call count of the greedy loop: with `k` remaining targets it issues
`2k + 2(k-1) + ... + 2 = k(k+1)` `calculateRoute` calls. -/
theorem greedyLoop_calls (p : Provider) (depotGeocoded : GeocodedAddress)
    (deliveryDurationMinutes : ℚ) :
    ∀ (fuel : ℕ) (remaining : List GeocodedAddress) (currentDepartureTime : TimeMs)
      (deliveries : List OptimizedDelivery) (calls : ℕ),
      remaining.length = fuel →
      (greedyLoop p depotGeocoded deliveryDurationMinutes fuel remaining
        currentDepartureTime deliveries calls).2.2 = calls + fuel * (fuel + 1)
  | 0, remaining, t, deliveries, calls, hlen => by
    simp [greedyLoop]
  | fuel + 1, remaining, t, deliveries, calls, hlen => by
    have hne : remaining ≠ [] := by
      intro hnil
      rw [hnil] at hlen
      simp at hlen
    have hemp : remaining.isEmpty = false := by
      simpa [List.isEmpty_iff] using hne
    rw [greedyLoop, hemp]
    simp only [Bool.false_eq_true, if_false]
    have hlen' :
        (jsSpliceOne remaining (jsFindIndex remaining fun t' =>
          t'.address == (selectedCandidate (roundCandidates p depotGeocoded
            deliveryDurationMinutes remaining t calls).1).target.address)).length
          = fuel := by
      have := length_jsSpliceOne_jsFindIndex remaining
        (fun t' => t'.address == (selectedCandidate (roundCandidates p depotGeocoded
          deliveryDurationMinutes remaining t calls).1).target.address) hne
      omega
    rw [greedyLoop_calls p depotGeocoded deliveryDurationMinutes fuel _ _ _ _ hlen']
    rw [roundCandidates_snd, hlen]
    ring

/-- Invariant of the original-order loop: one delivery per target, numbered
consecutively from the incoming index, chained on the simulated clock. -/
theorem orderedLoop_spec (p : Provider) (depotGeocoded : GeocodedAddress)
    (deliveryDurationMinutes : ℚ) :
    ∀ (targets : List GeocodedAddress) (i : ℕ) (currentDepartureTime : TimeMs)
      (deliveries : List OptimizedDelivery) (calls : ℕ),
      ∃ new : List OptimizedDelivery,
        (orderedLoop p depotGeocoded deliveryDurationMinutes targets i
          currentDepartureTime deliveries calls).1 = deliveries ++ new ∧
        new.map (·.order) = List.range' (i + 1) targets.length ∧
        deliveryChain currentDepartureTime new
  | [], i, t, deliveries, calls => ⟨[], by simp [orderedLoop], by simp, trivial⟩
  | target :: rest, i, t, deliveries, calls => by
    rw [orderedLoop]
    obtain ⟨new', hres, hord, hchain⟩ :=
      orderedLoop_spec p depotGeocoded deliveryDurationMinutes rest (i + 1)
        (calculateRoundTrip p depotGeocoded target t deliveryDurationMinutes calls).1.returnRoute.arrivalTime
        (deliveries ++ [mkOptimizedDelivery
          (calculateRoundTrip p depotGeocoded target t deliveryDurationMinutes calls).1
          deliveryDurationMinutes t (i + 1)])
        (calculateRoundTrip p depotGeocoded target t deliveryDurationMinutes calls).2
    refine ⟨mkOptimizedDelivery
      (calculateRoundTrip p depotGeocoded target t deliveryDurationMinutes calls).1
      deliveryDurationMinutes t (i + 1) :: new', ?_, ?_, ?_⟩
    · rw [hres]
      simp
    · simp only [List.map_cons, hord, List.length_cons]
      rw [List.range'_succ]
      simp [mkOptimizedDelivery]
    · refine ⟨rfl, ?_⟩
      exact hchain

/-- Call count of the original-order loop: two `calculateRoute` calls per
target. -/
theorem orderedLoop_calls (p : Provider) (depotGeocoded : GeocodedAddress)
    (deliveryDurationMinutes : ℚ) :
    ∀ (targets : List GeocodedAddress) (i : ℕ) (currentDepartureTime : TimeMs)
      (deliveries : List OptimizedDelivery) (calls : ℕ),
      (orderedLoop p depotGeocoded deliveryDurationMinutes targets i
        currentDepartureTime deliveries calls).2.2 = calls + 2 * targets.length
  | [], i, t, deliveries, calls => by simp [orderedLoop]
  | target :: rest, i, t, deliveries, calls => by
    rw [orderedLoop]
    rw [orderedLoop_calls p depotGeocoded deliveryDurationMinutes rest (i + 1) _ _ _]
    rw [calculateRoundTrip_snd]
    simp only [List.length_cons]
    ring

/-- The deliveries of any core-optimizer plan carry orders `1, 2, ..., N` in
list order, for `N` the number of (geocoded) targets — both modes. -/
theorem optimizeCore_orders (p : Provider) (hol : TimeMs → String)
    (depotGeocoded : GeocodedAddress) (targetAddresses : List GeocodedAddress)
    (firstDepartureTime : TimeMs) (deliveryDurationMinutes : ℚ)
    (sortByTrafficDensity : Bool) :
    (optimizeCore p hol depotGeocoded targetAddresses firstDepartureTime
        deliveryDurationMinutes sortByTrafficDensity).1.deliveries.map (·.order)
      = List.range' 1 targetAddresses.length := by
  unfold optimizeCore
  cases sortByTrafficDensity with
  | false =>
    simp only [Bool.false_eq_true, if_false]
    obtain ⟨new, hres, hord, -⟩ :=
      orderedLoop_spec p depotGeocoded deliveryDurationMinutes targetAddresses 0
        firstDepartureTime [] 0
    simp only [hres, List.nil_append]
    simpa using hord
  | true =>
    simp only [if_true]
    obtain ⟨new, hres, hord, -⟩ :=
      greedyLoop_spec p depotGeocoded deliveryDurationMinutes
        targetAddresses.length targetAddresses firstDepartureTime [] 0 rfl
    simp only [hres, List.nil_append]
    simpa using hord

/-- The deliveries of any core-optimizer plan satisfy the simulated-clock
chain starting at the first departure time — both modes. -/
theorem optimizeCore_chain (p : Provider) (hol : TimeMs → String)
    (depotGeocoded : GeocodedAddress) (targetAddresses : List GeocodedAddress)
    (firstDepartureTime : TimeMs) (deliveryDurationMinutes : ℚ)
    (sortByTrafficDensity : Bool) :
    deliveryChain firstDepartureTime
      (optimizeCore p hol depotGeocoded targetAddresses firstDepartureTime
        deliveryDurationMinutes sortByTrafficDensity).1.deliveries := by
  unfold optimizeCore
  cases sortByTrafficDensity with
  | false =>
    simp only [Bool.false_eq_true, if_false]
    obtain ⟨new, hres, -, hchain⟩ :=
      orderedLoop_spec p depotGeocoded deliveryDurationMinutes targetAddresses 0
        firstDepartureTime [] 0
    simpa [hres] using hchain
  | true =>
    simp only [if_true]
    obtain ⟨new, hres, -, hchain⟩ :=
      greedyLoop_spec p depotGeocoded deliveryDurationMinutes
        targetAddresses.length targetAddresses firstDepartureTime [] 0 rfl
    simpa [hres] using hchain

/-- Total `calculateRoute` calls of the core optimizer: `2N` in ordered mode,
`N(N+1)` in greedy mode. -/
theorem optimizeCore_calls (p : Provider) (hol : TimeMs → String)
    (depotGeocoded : GeocodedAddress) (targetAddresses : List GeocodedAddress)
    (firstDepartureTime : TimeMs) (deliveryDurationMinutes : ℚ)
    (sortByTrafficDensity : Bool) :
    (optimizeCore p hol depotGeocoded targetAddresses firstDepartureTime
        deliveryDurationMinutes sortByTrafficDensity).2
      = if sortByTrafficDensity then
          targetAddresses.length * (targetAddresses.length + 1)
        else 2 * targetAddresses.length := by
  unfold optimizeCore
  cases sortByTrafficDensity with
  | false =>
    simp only [Bool.false_eq_true, if_false]
    rw [orderedLoop_calls p depotGeocoded deliveryDurationMinutes targetAddresses 0
      firstDepartureTime [] 0]
    omega
  | true =>
    simp only [if_true]
    rw [greedyLoop_calls p depotGeocoded deliveryDurationMinutes
      targetAddresses.length targetAddresses firstDepartureTime [] 0 rfl]
    simp

/-- Collecting geocoded targets preserves the number of targets. -/
theorem collectTargets_ok_length (geocoded : List (String × GeocodedAddress)) :
    ∀ (targets : List AddressInput) (l : List GeocodedAddress),
      collectTargets geocoded targets = .ok l → l.length = targets.length
  | [], l, h => by
    simp only [collectTargets] at h
    cases h
    rfl
  | target :: rest, l, h => by
    simp only [collectTargets] at h
    cases hm : mapGet geocoded target.address with
    | none => rw [hm] at h; cases h
    | some g =>
      rw [hm] at h
      cases hc : collectTargets geocoded rest with
      | error e => rw [hc] at h; cases h
      | ok gs =>
        rw [hc] at h
        cases h
        simp [collectTargets_ok_length geocoded rest gs hc]

/-- Inverting a successful `optimize` run: the result is `optimizeCore` on
some geocoded depot and a geocoded-target list of the same length as the
requested targets. -/
theorem optimize_ok {p : Provider} {hol : TimeMs → String}
    {options : OptimizeOptions} {r : DeliveryPlan × ℕ}
    (h : optimize p hol options = .ok r) :
    ∃ (depotGeocoded : GeocodedAddress) (targetAddresses : List GeocodedAddress),
      targetAddresses.length = options.targets.length ∧
      r = optimizeCore p hol depotGeocoded targetAddresses
        options.firstDepartureTime options.deliveryDurationMinutes
        options.sortByTrafficDensity := by
  unfold optimize at h
  cases hg : geocodeMultiple p (options.depot :: options.targets) with
  | error e => rw [hg] at h; cases h
  | ok geocoded =>
    rw [hg] at h
    dsimp only at h
    cases hd : mapGet geocoded options.depot.address with
    | none => rw [hd] at h; cases h
    | some depotGeocoded =>
      rw [hd] at h
      dsimp only at h
      cases hc : collectTargets geocoded options.targets with
      | error e => rw [hc] at h; cases h
      | ok targetAddresses =>
        rw [hc] at h
        dsimp only at h
        cases h
        exact ⟨depotGeocoded, targetAddresses,
          collectTargets_ok_length geocoded options.targets targetAddresses hc, rfl⟩

/-- From the chain predicate: the head's departure is the start time. -/
theorem deliveryChain_head {t : TimeMs} {ds : List OptimizedDelivery}
    (h : deliveryChain t ds) :
    ∀ d ∈ ds.head?, d.estimatedDepartureTime = t := by
  cases ds with
  | nil => intro d hd; cases hd
  | cons d ds =>
    intro d' hd'
    cases hd'
    exact h.1

/-- From the chain predicate: each delivery departs at the previous delivery's
return arrival. -/
theorem deliveryChain_get {ds : List OptimizedDelivery} :
    ∀ {t : TimeMs}, deliveryChain t ds →
    ∀ (i : ℕ) (hi : i + 1 < ds.length),
      (ds.get ⟨i + 1, hi⟩).estimatedDepartureTime
        = (ds.get ⟨i, Nat.lt_of_succ_lt hi⟩).estimatedReturnTime := by
  induction ds with
  | nil => intro t h i hi; simp at hi
  | cons d ds ih =>
    intro t h i hi
    cases i with
    | zero =>
      cases ds with
      | nil => simp at hi
      | cons e ds' =>
        have := h.2
        exact this.1
    | succ j =>
      have hlt : j + 1 < ds.length := by
        simpa using hi
      exact ih h.2 j hlt

/-! ## Claim theorems -/

/-- C1 (counterexample): the claim "every adapter applies the clamp
`max(1.0, round(density_raw, 3))`, so every stored `trafficDensity` is ≥ 1.0"
is false on the code: the HERE adapter stores the rounded raw ratio without any
clamp, so a HERE response with `duration = 90`, `baseDuration = 100` yields a
stored `trafficDensity` of 0.9 < 1.0. -/
theorem C1_here_stores_density_below_one :
    (HereProvider.routeSegment sampleRequest hereSlowBaselineSection).trafficDensity
        = 9 / 10
    ∧ ((9 : ℚ) / 10) < 1 := by
  constructor
  · show round3 ((90 : ℚ) / 100) = 9 / 10
    unfold round3 jsRound
    norm_num
  · norm_num

/-- C1 (amended): only the Google adapter applies the `max(1.0, ·)` clamp —
it stores `round3 (max 1 density_raw)`, so its stored `trafficDensity` is
always ≥ 1.0.  The HERE and TomTom adapters store `round3 density_raw` with no
clamp; whenever the (positive) baseline travel time is at most the travel time
with traffic their stored density is ≥ 1.0, but nothing clamps a raw ratio
below 1, so the stored value can fall below 1.0 (see the counterexample). -/
theorem C1_adapter_density_clamps :
    (∀ (request : RouteRequest) (leg : GoogleLeg),
      (GoogleProvider.routeSegment request leg).trafficDensity
        = round3 (max 1 (leg.durationInTrafficValue.getD leg.durationValue
            / leg.durationValue))
      ∧ 1 ≤ (GoogleProvider.routeSegment request leg).trafficDensity)
    ∧ (∀ (request : RouteRequest) (sec : HereSection),
        (HereProvider.routeSegment request sec).trafficDensity
          = round3 (sec.summary.duration / sec.summary.baseDuration.getD
              (sec.summary.typicalDuration.getD sec.summary.duration))
        ∧ (0 < sec.summary.baseDuration.getD
              (sec.summary.typicalDuration.getD sec.summary.duration) →
           sec.summary.baseDuration.getD
              (sec.summary.typicalDuration.getD sec.summary.duration)
             ≤ sec.summary.duration →
           1 ≤ (HereProvider.routeSegment request sec).trafficDensity))
    ∧ (∀ (request : RouteRequest) (summary : TomTomSummary),
        (TomTomProvider.routeSegment request summary).trafficDensity
          = round3 (summary.travelTimeInSeconds
              / summary.noTrafficTravelTimeInSeconds.getD summary.travelTimeInSeconds)
        ∧ (0 < summary.noTrafficTravelTimeInSeconds.getD summary.travelTimeInSeconds →
           summary.noTrafficTravelTimeInSeconds.getD summary.travelTimeInSeconds
             ≤ summary.travelTimeInSeconds →
           1 ≤ (TomTomProvider.routeSegment request summary).trafficDensity)) := by
  refine ⟨?_, ?_, ?_⟩
  · intro request leg
    refine ⟨rfl, ?_⟩
    exact round3_ge_one (le_max_left _ _)
  · intro request sec
    refine ⟨rfl, ?_⟩
    intro h0 hle
    apply round3_ge_one
    rw [le_div_iff₀ h0, one_mul]
    exact hle
  · intro request summary
    refine ⟨rfl, ?_⟩
    intro h0 hle
    apply round3_ge_one
    rw [le_div_iff₀ h0, one_mul]
    exact hle

/-- C1 (witness): the amended statement applied to concrete responses — a
Google leg with lighter-than-typical traffic still stores density 1.0, and
congested HERE/TomTom responses store densities ≥ 1.0. -/
theorem C1_adapter_density_clamps_witness :
    1 ≤ (GoogleProvider.routeSegment sampleRequest googleLightTrafficLeg).trafficDensity
    ∧ 1 ≤ (HereProvider.routeSegment sampleRequest hereCongestedSection).trafficDensity
    ∧ 1 ≤ (TomTomProvider.routeSegment sampleRequest tomtomCongestedSummary).trafficDensity :=
  ⟨(C1_adapter_density_clamps.1 sampleRequest googleLightTrafficLeg).2,
   (C1_adapter_density_clamps.2.1 sampleRequest hereCongestedSection).2
     (by norm_num [hereCongestedSection]) (by norm_num [hereCongestedSection]),
   (C1_adapter_density_clamps.2.2 sampleRequest tomtomCongestedSummary).2
     (by norm_num [tomtomCongestedSummary]) (by norm_num [tomtomCongestedSummary])⟩

/-- C2 (counterexample): the claim that `averageTrafficDensity` equals
`totalTravelTimeSeconds / totalNoTrafficTravelTimeSeconds` exactly (subject
only to the ≥ 1.0 clamp) is false: the code additionally rounds the clamped
ratio to 3 decimals.  On the stub run the ratio of the totals is 400/300 = 4/3,
the clamp leaves it unchanged, yet the stored value is 1.333 ≠ 4/3. -/
theorem C2_average_density_not_exact_ratio :
    stubResult.1.totalTravelTimeSeconds = 400
    ∧ stubResult.1.totalNoTrafficTravelTimeSeconds = 300
    ∧ max 1 (stubResult.1.totalTravelTimeSeconds
        / stubResult.1.totalNoTrafficTravelTimeSeconds) = 4 / 3
    ∧ stubResult.1.averageTrafficDensity = 1333 / 1000
    ∧ ((1333 : ℚ) / 1000) ≠ 4 / 3 := by
  have he : stubResult = optimizeCore stubProvider stubHol
      (stubGeocode { address := "D" }) [stubGeocode { address := "A" }]
      0 15 false := rfl
  refine ⟨?_, ?_, ?_, ?_, by norm_num⟩ <;>
    rw [he] <;>
    norm_num [optimizeCore, orderedLoop, calculateRoundTrip,
      Provider.callRoute, mkOptimizedDelivery, stubProvider, stubGeocode,
      round3, jsRound]

/-- C2 (amended): for every successful `optimize` run, `averageTrafficDensity`
equals `round3 (max 1 ratio)` where `ratio` is
`totalTravelTimeSeconds / totalNoTrafficTravelTimeSeconds` (with the 0-denominator
guard), and the two totals are the sums over both outbound and return legs of
every delivery — in particular it is never the mean of the per-delivery
round-trip densities. -/
theorem C2_average_density_formula (p : Provider) (hol : TimeMs → String)
    (options : OptimizeOptions) (r : DeliveryPlan × ℕ)
    (h : optimize p hol options = .ok r) :
    r.1.averageTrafficDensity
      = round3 (max 1 (if 0 < r.1.totalNoTrafficTravelTimeSeconds then
          r.1.totalTravelTimeSeconds / r.1.totalNoTrafficTravelTimeSeconds
        else 1))
    ∧ r.1.totalTravelTimeSeconds = r.1.deliveries.foldl
        (fun sum d => sum + d.route.travelTimeSeconds
          + d.returnRoute.travelTimeSeconds) (0 : ℚ)
    ∧ r.1.totalNoTrafficTravelTimeSeconds = r.1.deliveries.foldl
        (fun sum d => sum + d.route.noTrafficTravelTimeSeconds
          + d.returnRoute.noTrafficTravelTimeSeconds) (0 : ℚ) := by
  obtain ⟨depotGeocoded, targetAddresses, -, rfl⟩ := optimize_ok h
  exact ⟨rfl, rfl, rfl⟩

/-- C2 (witness): the amended formula instantiated on the stub run. -/
theorem C2_average_density_formula_witness :
    stubResult.1.averageTrafficDensity
      = round3 (max 1 (if 0 < stubResult.1.totalNoTrafficTravelTimeSeconds then
          stubResult.1.totalTravelTimeSeconds / stubResult.1.totalNoTrafficTravelTimeSeconds
        else 1))
    ∧ stubResult.1.totalTravelTimeSeconds = stubResult.1.deliveries.foldl
        (fun sum d => sum + d.route.travelTimeSeconds
          + d.returnRoute.travelTimeSeconds) (0 : ℚ)
    ∧ stubResult.1.totalNoTrafficTravelTimeSeconds = stubResult.1.deliveries.foldl
        (fun sum d => sum + d.route.noTrafficTravelTimeSeconds
          + d.returnRoute.noTrafficTravelTimeSeconds) (0 : ℚ) :=
  C2_average_density_formula stubProvider stubHol stubOptions stubResult rfl

/-- C3: in greedy ("density-greedy") mode, at any round (any remaining-target
set and simulated clock) the selected candidate minimizes the round-trip
travel-time sum `outbound.travelTimeSeconds + return.travelTimeSeconds` over
all candidates of that round, computed fresh at the current clock — selection
is by this time sum, not by traffic density. -/
theorem C3_greedy_selects_min_time_sum (p : Provider)
    (depotGeocoded : GeocodedAddress) (deliveryDurationMinutes : ℚ)
    (remaining : List GeocodedAddress) (currentDepartureTime : TimeMs)
    (calls : ℕ) (h : remaining ≠ []) :
    ∀ c ∈ (roundCandidates p depotGeocoded deliveryDurationMinutes remaining
        currentDepartureTime calls).1,
      (selectedCandidate (roundCandidates p depotGeocoded
          deliveryDurationMinutes remaining currentDepartureTime calls).1).totalTravelTime
        ≤ c.totalTravelTime := by
  have hne : (roundCandidates p depotGeocoded deliveryDurationMinutes remaining
      currentDepartureTime calls).1 ≠ [] := by
    rw [roundCandidates_fst]
    simpa using h
  exact headI_mergeSort_min RoundTripRoute.totalTravelTime _ hne

/-- C3 (witness): with one remaining target, the selected candidate's time sum
is bounded by that of the single candidate. -/
theorem C3_greedy_selects_min_time_sum_witness :
    (selectedCandidate (roundCandidates stubProvider
        (stubGeocode { address := "D" }) 15 [stubGeocode { address := "A" }]
        0 0).1).totalTravelTime
      ≤ ((calculateRoundTrip stubProvider (stubGeocode { address := "D" })
          (stubGeocode { address := "A" }) 0 15 0).1).totalTravelTime :=
  C3_greedy_selects_min_time_sum stubProvider (stubGeocode { address := "D" })
    15 [stubGeocode { address := "A" }] 0 0 (by simp)
    _ (List.mem_cons_self _ _)

/-- C4: a successful `optimize` run with `N` requested targets issues exactly
`2N` provider `calculateRoute` calls in "ordered" mode and exactly `N(N+1)` in
"density-greedy" mode. -/
theorem C4_route_call_counts (p : Provider) (hol : TimeMs → String)
    (options : OptimizeOptions) (r : DeliveryPlan × ℕ)
    (h : optimize p hol options = .ok r) :
    r.2 = if options.sortByTrafficDensity then
        options.targets.length * (options.targets.length + 1)
      else 2 * options.targets.length := by
  obtain ⟨depotGeocoded, targetAddresses, hlen, rfl⟩ := optimize_ok h
  rw [optimizeCore_calls, hlen]

/-- C4 (witness): the ordered-mode stub run with one target issued
`2 × 1` calls. -/
theorem C4_route_call_counts_witness :
    stubResult.2 = if stubOptions.sortByTrafficDensity then
        stubOptions.targets.length * (stubOptions.targets.length + 1)
      else 2 * stubOptions.targets.length :=
  C4_route_call_counts stubProvider stubHol stubOptions stubResult rfl

/-- C5: for every round trip computed by the optimizer, the return leg is the
provider's answer to a request departing exactly at the outbound leg's arrival
time plus `deliveryDurationMinutes` minutes; the configured default service
duration is 15 minutes. -/
theorem C5_return_leg_departure_time (p : Provider)
    (depotGeocoded target : GeocodedAddress) (departureTime : TimeMs)
    (deliveryDurationMinutes : ℚ) (calls : ℕ) :
    (calculateRoundTrip p depotGeocoded target departureTime
        deliveryDurationMinutes calls).1.returnRoute
      = p.calcRoute
          { origin := target
            destination := depotGeocoded
            departureTime :=
              (p.calcRoute
                  { origin := depotGeocoded
                    destination := target
                    departureTime := departureTime }).arrivalTime
                + deliveryDurationMinutes * 60 * 1000 }
    ∧ configDefaultDeliveryDurationMinutes = 15 :=
  ⟨rfl, rfl⟩

/-- C6: every successful `optimize` run with `N` requested targets produces
exactly `N` deliveries whose `order` fields are `1, 2, ..., N` in list order
(hence a contiguous 1-based permutation) — in either mode. -/
theorem C6_orders_contiguous (p : Provider) (hol : TimeMs → String)
    (options : OptimizeOptions) (r : DeliveryPlan × ℕ)
    (h : optimize p hol options = .ok r) :
    r.1.deliveries.length = options.targets.length
    ∧ r.1.deliveries.map (·.order) = List.range' 1 options.targets.length := by
  obtain ⟨depotGeocoded, targetAddresses, hlen, rfl⟩ := optimize_ok h
  have horders := optimizeCore_orders p hol depotGeocoded targetAddresses
    options.firstDepartureTime options.deliveryDurationMinutes
    options.sortByTrafficDensity
  refine ⟨?_, by rw [horders, hlen]⟩
  have hmaplen := congrArg List.length horders
  simpa [hlen] using hmaplen

/-- C6 (witness): the one-target stub run has one delivery with order 1. -/
theorem C6_orders_contiguous_witness :
    stubResult.1.deliveries.length = stubOptions.targets.length
    ∧ stubResult.1.deliveries.map (·.order)
      = List.range' 1 stubOptions.targets.length :=
  C6_orders_contiguous stubProvider stubHol stubOptions stubResult rfl

/-- C7: in every successful `optimize` run (either mode) the first delivery's
`estimatedDepartureTime` is the requested `firstDepartureTime`, and each
subsequent delivery's `estimatedDepartureTime` equals the previous delivery's
`estimatedReturnTime` — the simulated clock advances to the previous return
arrival. -/
theorem C7_departure_times_chain (p : Provider) (hol : TimeMs → String)
    (options : OptimizeOptions) (r : DeliveryPlan × ℕ)
    (h : optimize p hol options = .ok r) :
    (∀ d ∈ r.1.deliveries.head?,
      d.estimatedDepartureTime = options.firstDepartureTime)
    ∧ ∀ (i : ℕ) (hi : i + 1 < r.1.deliveries.length),
        (r.1.deliveries.get ⟨i + 1, hi⟩).estimatedDepartureTime
          = (r.1.deliveries.get ⟨i, Nat.lt_of_succ_lt hi⟩).estimatedReturnTime := by
  obtain ⟨depotGeocoded, targetAddresses, -, rfl⟩ := optimize_ok h
  have hchain := optimizeCore_chain p hol depotGeocoded targetAddresses
    options.firstDepartureTime options.deliveryDurationMinutes
    options.sortByTrafficDensity
  exact ⟨deliveryChain_head hchain, fun i hi => deliveryChain_get hchain i hi⟩

/-- C7 (witness): in the two-target stub run, the second delivery departs
exactly at the first delivery's return arrival. -/
theorem C7_departure_times_chain_witness :
    (stubResultTwo.1.deliveries.get ⟨1, by decide⟩).estimatedDepartureTime
      = (stubResultTwo.1.deliveries.get
          ⟨0, Nat.lt_of_succ_lt (by decide)⟩).estimatedReturnTime :=
  (C7_departure_times_chain stubProvider stubHol stubOptionsTwo stubResultTwo
    rfl).2 0 (by decide)

/-- C8: for every round trip the stored round-trip traffic density is the
arithmetic mean of the two legs' densities rounded to 3 decimals, and no
second clamp to 1.0 is applied at the round-trip level: with legs of density
4/5 the stored round-trip density is 4/5 < 1. -/
theorem C8_roundtrip_density_unclamped_mean (p : Provider)
    (depotGeocoded target : GeocodedAddress) (departureTime : TimeMs)
    (deliveryDurationMinutes : ℚ) (calls : ℕ) :
    (calculateRoundTrip p depotGeocoded target departureTime
        deliveryDurationMinutes calls).1.roundTripTrafficDensity
      = round3 (((calculateRoundTrip p depotGeocoded target departureTime
            deliveryDurationMinutes calls).1.outboundRoute.trafficDensity
          + (calculateRoundTrip p depotGeocoded target departureTime
            deliveryDurationMinutes calls).1.returnRoute.trafficDensity) / 2)
    ∧ (calculateRoundTrip lowDensityProvider (stubGeocode { address := "D" })
        (stubGeocode { address := "A" }) 0 15 0).1.roundTripTrafficDensity < 1 := by
  refine ⟨rfl, ?_⟩
  show round3 ((4 / 5 + 4 / 5) / 2) < 1
  unfold round3 jsRound
  norm_num

/-- C9 (counterexample): `optimize()` itself does not validate its input — a
call with an empty target list succeeds and produces a plan with zero
deliveries instead of failing with a validation error. -/
theorem C9_optimize_accepts_empty_targets :
    (optimize stubProvider stubHol emptyTargetsOptions).isOk = true
    ∧ ((optimize stubProvider stubHol
        emptyTargetsOptions).toOption.getD default).1.deliveries.length = 0 :=
  ⟨rfl, rfl⟩

/-- C9 (amended): malformed optimize input — an empty target list, more than
50 targets, or a non-positive provided service duration — is rejected by
`OptimizeRequestSchema` at the API boundary: `safeParse` fails, so the
optimize endpoint answers 400 "Invalid request body" and never runs the
optimizer; the `optimize()` function itself performs no such validation. -/
theorem C9_schema_rejects_malformed_input (p : Provider)
    (hol : TimeMs → String) (isDatetime : String → Bool)
    (toInstant : String → TimeMs) (body : OptimizeRequestRaw)
    (h : body.targets = [] ∨ 50 < body.targets.length
      ∨ ∃ d, body.deliveryDurationMinutes = some d ∧ d ≤ 0) :
    safeParseOptimizeRequest isDatetime body = none
    ∧ handleOptimize p hol isDatetime toInstant body
      = .badRequest "Invalid request body" := by
  have hparse : safeParseOptimizeRequest isDatetime body = none := by
    unfold safeParseOptimizeRequest
    rcases h with hempty | hbig | ⟨d, hd, hdle⟩
    · rw [if_neg]
      simp [hempty]
    · rw [if_neg]
      simp only [Bool.and_eq_true, decide_eq_true_eq]
      rintro ⟨⟨⟨⟨⟨⟨-, -⟩, -⟩, hle⟩, -⟩, -⟩, -⟩
      omega
    · rw [if_neg]
      simp only [hd, Bool.and_eq_true, decide_eq_true_eq]
      rintro ⟨⟨-, hpos⟩, -⟩
      linarith
  refine ⟨hparse, ?_⟩
  unfold handleOptimize
  rw [hparse]

/-- C9 (witness): the schema rejects the concrete empty-target request body
and the endpoint answers 400. -/
theorem C9_schema_rejects_malformed_input_witness :
    safeParseOptimizeRequest (fun _ => true) emptyTargetsBody = none
    ∧ handleOptimize stubProvider stubHol (fun _ => true) (fun _ => 0)
        emptyTargetsBody = .badRequest "Invalid request body" :=
  C9_schema_rejects_malformed_input stubProvider stubHol (fun _ => true)
    (fun _ => 0) emptyTargetsBody (Or.inl rfl)

/-- C10 (implicit): the greedy round's candidate list is the remaining targets
in caller-supplied order, and — because the sort modelling the ECMAScript
stable `Array.prototype.sort` is stable — the selected candidate is the one of
smallest index among those attaining the minimal round-trip travel-time sum:
ties go to the target appearing earliest among the remaining targets, making
the selection deterministic for identical provider results. -/
theorem C10_greedy_tie_break_earliest (p : Provider)
    (depotGeocoded : GeocodedAddress) (deliveryDurationMinutes : ℚ)
    (remaining : List GeocodedAddress) (currentDepartureTime : TimeMs)
    (calls : ℕ) (h : remaining ≠ []) :
    (roundCandidates p depotGeocoded deliveryDurationMinutes remaining
        currentDepartureTime calls).1
      = remaining.map (fun t => (calculateRoundTrip p depotGeocoded t
          currentDepartureTime deliveryDurationMinutes 0).1)
    ∧ ∃ i : Fin (roundCandidates p depotGeocoded deliveryDurationMinutes
        remaining currentDepartureTime calls).1.length,
        selectedCandidate (roundCandidates p depotGeocoded
            deliveryDurationMinutes remaining currentDepartureTime calls).1
          = (roundCandidates p depotGeocoded deliveryDurationMinutes remaining
              currentDepartureTime calls).1.get i
        ∧ (∀ j, ((roundCandidates p depotGeocoded deliveryDurationMinutes
              remaining currentDepartureTime calls).1.get i).totalTravelTime
            ≤ ((roundCandidates p depotGeocoded deliveryDurationMinutes
              remaining currentDepartureTime calls).1.get j).totalTravelTime)
        ∧ ∀ j, ((roundCandidates p depotGeocoded deliveryDurationMinutes
              remaining currentDepartureTime calls).1.get j).totalTravelTime
            ≤ ((roundCandidates p depotGeocoded deliveryDurationMinutes
              remaining currentDepartureTime calls).1.get i).totalTravelTime
            → (i : ℕ) ≤ (j : ℕ) := by
  have hne : (roundCandidates p depotGeocoded deliveryDurationMinutes remaining
      currentDepartureTime calls).1 ≠ [] := by
    rw [roundCandidates_fst]
    simpa using h
  exact ⟨roundCandidates_fst p depotGeocoded deliveryDurationMinutes remaining
      currentDepartureTime calls,
    headI_mergeSort_first_argmin RoundTripRoute.totalTravelTime _ hne⟩

/-- C10 (witness): instantiated on a concrete two-target round. -/
theorem C10_greedy_tie_break_earliest_witness :
    (roundCandidates stubProvider (stubGeocode { address := "D" }) 15
        [stubGeocode { address := "A" }, stubGeocode { address := "B" }] 0 0).1
      = [stubGeocode { address := "A" }, stubGeocode { address := "B" }].map
          (fun t => (calculateRoundTrip stubProvider
            (stubGeocode { address := "D" }) t 0 15 0).1)
    ∧ ∃ i : Fin (roundCandidates stubProvider (stubGeocode { address := "D" }) 15
        [stubGeocode { address := "A" }, stubGeocode { address := "B" }] 0 0).1.length,
        selectedCandidate (roundCandidates stubProvider
            (stubGeocode { address := "D" }) 15
            [stubGeocode { address := "A" }, stubGeocode { address := "B" }] 0 0).1
          = (roundCandidates stubProvider (stubGeocode { address := "D" }) 15
              [stubGeocode { address := "A" }, stubGeocode { address := "B" }] 0 0).1.get i
        ∧ (∀ j, ((roundCandidates stubProvider (stubGeocode { address := "D" }) 15
              [stubGeocode { address := "A" }, stubGeocode { address := "B" }] 0 0).1.get i).totalTravelTime
            ≤ ((roundCandidates stubProvider (stubGeocode { address := "D" }) 15
              [stubGeocode { address := "A" }, stubGeocode { address := "B" }] 0 0).1.get j).totalTravelTime)
        ∧ ∀ j, ((roundCandidates stubProvider (stubGeocode { address := "D" }) 15
              [stubGeocode { address := "A" }, stubGeocode { address := "B" }] 0 0).1.get j).totalTravelTime
            ≤ ((roundCandidates stubProvider (stubGeocode { address := "D" }) 15
              [stubGeocode { address := "A" }, stubGeocode { address := "B" }] 0 0).1.get i).totalTravelTime
            → (i : ℕ) ≤ (j : ℕ) :=
  C10_greedy_tie_break_earliest stubProvider (stubGeocode { address := "D" }) 15
    [stubGeocode { address := "A" }, stubGeocode { address := "B" }] 0 0 (by simp)
